import Mathlib

/-!
Verification of the error-propagation, handle-table, async-operation and
event-dispatch core of the speech SDK client runtime, shallowly embedded
from the C++ sources (source/core/common/exception.cpp, the public C/C++
API headers) and, where an implementation is not among the sources, from
the specification of the corresponding component.
-/

namespace Spx

/-- SPXHR is the ABI-stable numeric code type (uintptr_t in the C ABI);
modelled as Nat. -/
abbrev SPXHR := Nat

/-- Modelled from the spec: the closed ErrorCode taxonomy (§7).  The numeric
header defining the SPXERR_* constants is not among the sources; the values
below follow the SDK's 0x80f00000+offset scheme and are pairwise distinct,
which is all the development depends on. -/
def SPXERR_NOT_IMPL : SPXHR := 0x80f00000 + 0xfff

def SPXERR_UNINITIALIZED : SPXHR := 0x80f00000 + 0x001

def SPXERR_ALREADY_INITIALIZED : SPXHR := 0x80f00000 + 0x002

def SPXERR_UNHANDLED_EXCEPTION : SPXHR := 0x80f00000 + 0x003

def SPXERR_NOT_FOUND : SPXHR := 0x80f00000 + 0x004

def SPXERR_INVALID_ARG : SPXHR := 0x80f00000 + 0x005

def SPXERR_TIMEOUT : SPXHR := 0x80f00000 + 0x006

def SPXERR_ALREADY_IN_PROGRESS : SPXHR := 0x80f00000 + 0x007

def SPXERR_FILE_OPEN_FAILED : SPXHR := 0x80f00000 + 0x008

def SPXERR_UNEXPECTED_EOF : SPXHR := 0x80f00000 + 0x009

def SPXERR_INVALID_HEADER : SPXHR := 0x80f00000 + 0x00a

def SPXERR_AUDIO_IS_PUMPING : SPXHR := 0x80f00000 + 0x00b

def SPXERR_UNSUPPORTED_FORMAT : SPXHR := 0x80f00000 + 0x00c

def SPXERR_ABORT : SPXHR := 0x80f00000 + 0x00d

def SPXERR_MIC_NOT_AVAILABLE : SPXHR := 0x80f00000 + 0x00e

def SPXERR_INVALID_STATE : SPXHR := 0x80f00000 + 0x00f

def SPXERR_UUID_CREATE_FAILED : SPXHR := 0x80f00000 + 0x010

def SPXERR_SETFORMAT_UNEXPECTED_STATE_TRANSITION : SPXHR := 0x80f00000 + 0x011

def SPXERR_PROCESS_AUDIO_INVALID_STATE : SPXHR := 0x80f00000 + 0x012

def SPXERR_START_RECOGNIZING_INVALID_STATE_TRANSITION : SPXHR := 0x80f00000 + 0x013

def SPXERR_UNEXPECTED_CREATE_OBJECT_FAILURE : SPXHR := 0x80f00000 + 0x014

def SPXERR_MIC_ERROR : SPXHR := 0x80f00000 + 0x015

def SPXERR_NO_AUDIO_INPUT : SPXHR := 0x80f00000 + 0x016

def SPXERR_UNEXPECTED_USP_SITE_FAILURE : SPXHR := 0x80f00000 + 0x017

def SPXERR_BUFFER_TOO_SMALL : SPXHR := 0x80f00000 + 0x019

def SPXERR_OUT_OF_MEMORY : SPXHR := 0x80f00000 + 0x01a

def SPXERR_RUNTIME_ERROR : SPXHR := 0x80f00000 + 0x01b

def SPXERR_INVALID_URL : SPXHR := 0x80f00000 + 0x01c

def SPXERR_INVALID_REGION : SPXHR := 0x80f00000 + 0x01d

def SPXERR_SWITCH_MODE_NOT_ALLOWED : SPXHR := 0x80f00000 + 0x01e

/-- Embeds the errorToString map of exception.cpp (a std::map from SPXHR to
the symbolic name of the constant, built with _MAP_ENTRY): an association
list with the same entries, in the same order. -/
def errorToString : List (SPXHR × String) := [
  (SPXERR_NOT_IMPL, "SPXERR_NOT_IMPL"),
  (SPXERR_UNINITIALIZED, "SPXERR_UNINITIALIZED"),
  (SPXERR_ALREADY_INITIALIZED, "SPXERR_ALREADY_INITIALIZED"),
  (SPXERR_UNHANDLED_EXCEPTION, "SPXERR_UNHANDLED_EXCEPTION"),
  (SPXERR_NOT_FOUND, "SPXERR_NOT_FOUND"),
  (SPXERR_INVALID_ARG, "SPXERR_INVALID_ARG"),
  (SPXERR_TIMEOUT, "SPXERR_TIMEOUT"),
  (SPXERR_ALREADY_IN_PROGRESS, "SPXERR_ALREADY_IN_PROGRESS"),
  (SPXERR_FILE_OPEN_FAILED, "SPXERR_FILE_OPEN_FAILED"),
  (SPXERR_UNEXPECTED_EOF, "SPXERR_UNEXPECTED_EOF"),
  (SPXERR_INVALID_HEADER, "SPXERR_INVALID_HEADER"),
  (SPXERR_AUDIO_IS_PUMPING, "SPXERR_AUDIO_IS_PUMPING"),
  (SPXERR_UNSUPPORTED_FORMAT, "SPXERR_UNSUPPORTED_FORMAT"),
  (SPXERR_ABORT, "SPXERR_ABORT"),
  (SPXERR_MIC_NOT_AVAILABLE, "SPXERR_MIC_NOT_AVAILABLE"),
  (SPXERR_INVALID_STATE, "SPXERR_INVALID_STATE"),
  (SPXERR_UUID_CREATE_FAILED, "SPXERR_UUID_CREATE_FAILED"),
  (SPXERR_SETFORMAT_UNEXPECTED_STATE_TRANSITION, "SPXERR_SETFORMAT_UNEXPECTED_STATE_TRANSITION"),
  (SPXERR_PROCESS_AUDIO_INVALID_STATE, "SPXERR_PROCESS_AUDIO_INVALID_STATE"),
  (SPXERR_START_RECOGNIZING_INVALID_STATE_TRANSITION, "SPXERR_START_RECOGNIZING_INVALID_STATE_TRANSITION"),
  (SPXERR_UNEXPECTED_CREATE_OBJECT_FAILURE, "SPXERR_UNEXPECTED_CREATE_OBJECT_FAILURE"),
  (SPXERR_MIC_ERROR, "SPXERR_MIC_ERROR"),
  (SPXERR_NO_AUDIO_INPUT, "SPXERR_NO_AUDIO_INPUT"),
  (SPXERR_UNEXPECTED_USP_SITE_FAILURE, "SPXERR_UNEXPECTED_USP_SITE_FAILURE"),
  (SPXERR_BUFFER_TOO_SMALL, "SPXERR_BUFFER_TOO_SMALL"),
  (SPXERR_OUT_OF_MEMORY, "SPXERR_OUT_OF_MEMORY"),
  (SPXERR_RUNTIME_ERROR, "SPXERR_RUNTIME_ERROR"),
  (SPXERR_INVALID_URL, "SPXERR_INVALID_URL"),
  (SPXERR_INVALID_REGION, "SPXERR_INVALID_REGION"),
  (SPXERR_SWITCH_MODE_NOT_ALLOWED, "SPXERR_SWITCH_MODE_NOT_ALLOWED")]

/-- Lowercase hexadecimal rendering of a Nat, most significant digit first,
no leading zeros (the output of operator<< after std::hex on a stringstream). -/
def hexStr (n : Nat) : String := String.mk (Nat.toDigits 16 n)

/-- Embeds stringify of exception.cpp: writes "0x" then the hex rendering of
hr to the stream; if hr is found in the errorToString map also writes
" (" followed by the mapped name and ")". -/
def stringify (hr : SPXHR) : String :=
  let sstream := "0x" ++ hexStr hr
  match errorToString.find? (fun item => item.1 == hr) with
  | some item => sstream ++ " (" ++ item.2 ++ ")"
  | none => sstream

/-- Embeds ExceptionWithCallStack of exception.cpp: a std::runtime_error
subclass holding the runtime_error message (returned by what()), the
captured call stack m_callstack and the error code m_error. -/
structure ExceptionWithCallStack where
  message : String
  m_callstack : String
  m_error : SPXHR
deriving DecidableEq, Repr

/-- Embeds the ExceptionWithCallStack(SPXHR error, size_t skipLevels)
constructor: the runtime_error base gets "Exception with an error code: "
followed by stringify(error); the call stack is captured at the
construction site by Debug::GetCallStack, modelled as the capturedStack
argument. -/
def mkFromError (capturedStack : String) (error : SPXHR) : ExceptionWithCallStack :=
  { message := "Exception with an error code: " ++ stringify error
    m_callstack := capturedStack
    m_error := error }

/-- Embeds the ExceptionWithCallStack(const std::string& message, SPXHR
error, size_t skipLevels) constructor (error defaults to
SPXERR_UNHANDLED_EXCEPTION at the C++ declaration): the runtime_error base
gets the message verbatim, the call stack captured at the construction site
is the capturedStack argument and m_error is error. -/
def mkFromMessage (capturedStack : String) (message : String) (error : SPXHR) :
    ExceptionWithCallStack :=
  { message := message
    m_callstack := capturedStack
    m_error := error }

/-- Embeds the const member function GetCallStack: returns m_callstack.
Member functions are embedded as state passing, returning the record after
the call alongside the result; constness of the C++ method corresponds to
the returned record. -/
def GetCallStack (e : ExceptionWithCallStack) : String × ExceptionWithCallStack :=
  (e.m_callstack, e)

/-- Embeds the const member function GetErrorCode: returns m_error. -/
def GetErrorCode (e : ExceptionWithCallStack) : SPXHR × ExceptionWithCallStack :=
  (e.m_error, e)

/-- Embeds std::runtime_error::what() on an ExceptionWithCallStack: returns
the message stored in the runtime_error base (ExceptionWithCallStack does
not override what). -/
def whatOf (e : ExceptionWithCallStack) : String × ExceptionWithCallStack :=
  (e.message, e)

/-- Embeds the exception constructed by ThrowRuntimeError of exception.cpp
before it is thrown: message "Runtime error: " ++ msg and, in the source as
written, error code SPXERR_INVALID_ARG. -/
def ThrowRuntimeError_ex (capturedStack : String) (msg : String) : ExceptionWithCallStack :=
  mkFromMessage capturedStack ("Runtime error: " ++ msg) SPXERR_INVALID_ARG

/-- Embeds the exception constructed by ThrowInvalidArgumentException of
exception.cpp: message "Invalid argument exception: " ++ msg, code
SPXERR_INVALID_ARG. -/
def ThrowInvalidArgumentException_ex (capturedStack : String) (msg : String) :
    ExceptionWithCallStack :=
  mkFromMessage capturedStack ("Invalid argument exception: " ++ msg) SPXERR_INVALID_ARG

/-- Embeds the exception constructed by ThrowLogicError of exception.cpp:
message "Logic error: " ++ msg, code SPXERR_INVALID_ARG. -/
def ThrowLogicError_ex (capturedStack : String) (msg : String) : ExceptionWithCallStack :=
  mkFromMessage capturedStack ("Logic error: " ++ msg) SPXERR_INVALID_ARG

/-- Embeds the exception constructed by ThrowWithCallstack of exception.cpp:
built by the SPXHR constructor. -/
def ThrowWithCallstack_ex (capturedStack : String) (hr : SPXHR) : ExceptionWithCallStack :=
  mkFromError capturedStack hr

/-- Modelled from the spec: the type-partitioned handle table (§3, §4.1).
The implementation (handle_table.h, CSpxSharedPtrHandleTableManager) is not
among the sources; only its contract is specified.  Handles are modelled as
Nats drawn from a monotone counter; entries is the association list of live
(handle, object) pairs, newest first. -/
structure HandleTable (α : Type) where
  nextHandle : Nat
  entries : List (Nat × α)
deriving Repr

/-- Modelled from the spec: Track(object) registers a new owning reference
and returns a fresh handle unique among currently tracked objects. -/
def Track {α : Type} (t : HandleTable α) (x : α) : Nat × HandleTable α :=
  (t.nextHandle, { nextHandle := t.nextHandle + 1, entries := (t.nextHandle, x) :: t.entries })

/-- Modelled from the spec: Resolve(handle) returns the live object, or
none (NotFound) if the handle was never issued or already released. -/
def Resolve {α : Type} (t : HandleTable α) (h : Nat) : Option α :=
  (t.entries.find? (fun p => p.1 == h)).map Prod.snd

/-- Modelled from the spec: Release(handle) drops the table's ownership
share; releasing an already released or unknown handle fails with NotFound
(none) rather than silently succeeding. -/
def Release {α : Type} (t : HandleTable α) (h : Nat) : Option (HandleTable α) :=
  if t.entries.any (fun p => p.1 == h) then
    some { nextHandle := t.nextHandle, entries := t.entries.filter (fun p => p.1 != h) }
  else
    none

/-- Modelled from the spec: the ABI-facing form of Resolve — a failed
lookup is reported as the stable NotFound code. -/
def ResolveHr {α : Type} (t : HandleTable α) (h : Nat) : Except SPXHR α :=
  match Resolve t h with
  | some x => .ok x
  | none => .error SPXERR_NOT_FOUND

/-- Modelled from the spec: the ABI-facing form of Release — releasing an
already released or unknown handle is reported as the stable NotFound
code, never silently ignored. -/
def ReleaseHr {α : Type} (t : HandleTable α) (h : Nat) : Except SPXHR (HandleTable α) :=
  match Release t h with
  | some t2 => .ok t2
  | none => .error SPXERR_NOT_FOUND

/-- Well-formedness of a handle table: every live handle is below the
counter, so freshly issued handles never collide with live ones. -/
def wfTable {α : Type} (t : HandleTable α) : Prop :=
  ∀ p ∈ t.entries, p.1 < t.nextHandle

/-- An operation submitted to a handle table: track a new object or release
a handle. -/
inductive TableOp (α : Type) where
  | track (x : α)
  | release (h : Nat)
deriving DecidableEq

/-- Applies one operation to the table (a failed release leaves the table
unchanged, as the caller only observes the NotFound code). -/
def applyOp {α : Type} (t : HandleTable α) : TableOp α → HandleTable α
  | .track x => (Track t x).2
  | .release h => (Release t h).getD t

/-- Applies a sequence of operations in order. -/
def applyOps {α : Type} (t : HandleTable α) (ops : List (TableOp α)) : HandleTable α :=
  ops.foldl applyOp t

/-- True when the operation list never releases handle h. -/
abbrev noReleaseOf {α : Type} (ops : List (TableOp α)) (h : Nat) : Prop :=
  ∀ op ∈ ops, op ≠ TableOp.release h

/-- Embeds StoreException(ExceptionWithCallStack&&) of exception.cpp: a new
ExceptionWithCallStack is move-constructed from ex (the implicit move
constructor transfers message, call stack and error unchanged) and tracked
in the error-handle table; the returned handle is the stored SPXHR. -/
def StoreException_move (t : HandleTable ExceptionWithCallStack)
    (ex : ExceptionWithCallStack) : SPXHR × HandleTable ExceptionWithCallStack :=
  Track t ex

/-- Models the argument of StoreException(const std::runtime_error&): a
std::runtime_error reference whose dynamic type may be an
ExceptionWithCallStack (dynamicPart = some original record), in which case
what() returns that record's message. -/
structure RuntimeErrorRef where
  whatMsg : String
  dynamicPart : Option ExceptionWithCallStack

/-- Embeds StoreException(const std::runtime_error&) of exception.cpp: a
new ExceptionWithCallStack is constructed from ex.what() alone via the
message constructor, whose error defaults to SPXERR_UNHANDLED_EXCEPTION
and whose call stack is captured at this construction site (the freshStack
argument); the record is tracked in the error-handle table. -/
def StoreException_runtime (freshStack : String) (t : HandleTable ExceptionWithCallStack)
    (ex : RuntimeErrorRef) : SPXHR × HandleTable ExceptionWithCallStack :=
  Track t (mkFromMessage freshStack ex.whatMsg SPXERR_UNHANDLED_EXCEPTION)

/-- Modelled from the spec: the kinds of AsyncOperation scoped to one
Recognizer Session (§3, §4.3). -/
inductive OpKind where
  | recognizeOnce
  | startContinuous
  | stopContinuous
  | startKeyword
  | stopKeyword
deriving DecidableEq, Repr

/-- Modelled from the spec: AsyncOperation state machine Pending → Running
→ \x7bCompleted, Failed, Cancelled\x7d with sticky terminal states. -/
inductive OpState where
  | pending
  | running
  | completed
  | failed
  | cancelled
deriving DecidableEq, Repr

/-- True on the terminal states Completed, Failed, Cancelled. -/
def OpState.isTerminal : OpState → Bool
  | .completed => true
  | .failed => true
  | .cancelled => true
  | _ => false

/-- Modelled from the spec: the conflict policy of §4.3 — recognize-once
and start-continuous conflict with each other and with themselves,
start-keyword conflicts with itself, stop kinds conflict with nothing. -/
def conflicts : OpKind → OpKind → Bool
  | .recognizeOnce, .recognizeOnce => true
  | .recognizeOnce, .startContinuous => true
  | .startContinuous, .recognizeOnce => true
  | .startContinuous, .startContinuous => true
  | .startKeyword, .startKeyword => true
  | _, _ => false

/-- Modelled from the spec: one AsyncOperation of a session. -/
structure AsyncOperation where
  opId : Nat
  kind : OpKind
  state : OpState
deriving DecidableEq, Repr

/-- Modelled from the spec: the per-session async-operation bookkeeping — the
operations started on the session and the ids of work items scheduled for
execution. -/
structure Session where
  ops : List AsyncOperation
  nextOpId : Nat
  scheduledWork : List Nat
deriving Repr

/-- Modelled from the spec: Start(session, kind, work) of §4.3 — fails
immediately with AlreadyInProgress when a conflicting-kind operation on the
session is not yet terminal, leaving the session unchanged (nothing queued,
no work scheduled); otherwise schedules the work and returns the new
operation in Running state. -/
def StartOp (s : Session) (k : OpKind) : Except SPXHR AsyncOperation × Session :=
  if s.ops.any (fun o => conflicts o.kind k && !o.state.isTerminal) then
    (.error SPXERR_ALREADY_IN_PROGRESS, s)
  else
    let op : AsyncOperation := ⟨s.nextOpId, k, .running⟩
    (.ok op,
      { ops := op :: s.ops
        nextOpId := s.nextOpId + 1
        scheduledWork := s.nextOpId :: s.scheduledWork })

/-- Modelled from the spec: the observable state of one event stream (§4.4)
— the currently connected subscription ids and a log of deliveries, each
delivery tagged by the raise that produced it and the subscription that
received it. -/
structure EventStream where
  subscribers : List Nat
  delivered : List (Nat × Nat)
deriving Repr

/-- Modelled from the spec: DisconnectAll removes every registration from
the stream. -/
def DisconnectAll (st : EventStream) : EventStream :=
  { st with subscribers := [] }

/-- Modelled from the spec: Disconnect removes one subscription id. -/
def Disconnect (st : EventStream) (i : Nat) : EventStream :=
  { st with subscribers := st.subscribers.filter (fun j => j ≠ i) }

/-- Modelled from the spec: Raise of §4.4 — takes a snapshot of the
subscribers registered when the raise starts and delivers to each of them
in registration order; each callback may itself modify the subscriber list
(disconnect, disconnect-all, reconnect), which affects future raises but
not the snapshot being delivered.  cb i is the action subscription i's
callback performs on the subscriber list. -/
def Raise (cb : Nat → List Nat → List Nat) (raiseId : Nat) (st : EventStream) : EventStream :=
  st.subscribers.foldl
    (fun s i =>
      { subscribers := cb i s.subscribers
        delivered := (raiseId, i) :: s.delivered })
    st

/-- Embeds maxCharCount of IntentRecognitionResult::PopulateIntentFields:
the fixed character capacity of the stack buffer handed to the C API. -/
def maxCharCount : Nat := 1024

/-- Embeds IntentRecognitionResult::PopulateIntentFields of
speechapi_cxx_intent_recognition_result.h.  pintentIdNull models whether
the pintentId out-pointer is null; handleValid is the value of
recognizer_result_handle_is_valid(hresult); getIntentId models the C call
IntentResult_GetIntentId(hresult, sz, maxCharCount), taking the buffer
character count and returning either the string written into the buffer or
a failing SPXHR.  The guard skips the only call that can fail, leaving the
intent id at its default-constructed empty value; on a failing SPXHR the
SPX_THROW_ON_FAIL macro propagates the code as an exception (Except.error). -/
def PopulateIntentFields (pintentIdNull : Bool) (handleValid : Bool)
    (getIntentId : Nat → Except SPXHR String) : Except SPXHR String :=
  if !pintentIdNull && handleValid then
    match getIntentId maxCharCount with
    | .ok sz => .ok sz
    | .error hr => .error hr
  else
    .ok ""

/-- Embeds the IntentRecognitionResult constructor's population of
m_intentId: it passes the address of the member (never null) and the
result handle's validity to PopulateIntentFields. -/
def IntentRecognitionResult_intentId (handleValid : Bool)
    (getIntentId : Nat → Except SPXHR String) : Except SPXHR String :=
  PopulateIntentFields false handleValid getIntentId

/-! Theorems. -/

/-- Resolving the handle just returned by Track yields the tracked object. -/
lemma resolve_track {α : Type} (t : HandleTable α) (x : α) :
    Resolve (Track t x).2 (Track t x).1 = some x := by
  simp [Resolve, Track, List.find?]

/-- C1: building an ExceptionRecord from a message m and code c via the
message-taking ExceptionWithCallStack constructor, storing it with
StoreException, and reading the stored record back through its handle
yields a record whose what() is exactly m and whose GetErrorCode() is
exactly c. -/
theorem C1_store_retrieve_roundtrip (m : String) (c : SPXHR) (capturedStack : String)
    (t : HandleTable ExceptionWithCallStack) :
    ∃ rec,
      Resolve (StoreException_move t (mkFromMessage capturedStack m c)).2
          (StoreException_move t (mkFromMessage capturedStack m c)).1 = some rec
      ∧ (whatOf rec).1 = m
      ∧ (GetErrorCode rec).1 = c := by
  refine ⟨mkFromMessage capturedStack m c, ?_, rfl, rfl⟩
  exact resolve_track t (mkFromMessage capturedStack m c)

/-- C2: evaluated at a concrete message, the exception built by
ThrowRuntimeError carries SPXERR_INVALID_ARG, which differs from the
SPXERR_RUNTIME_ERROR constant the taxonomy reserves for runtime-error
failures — the source as written contradicts the intent evident from the
helper's name, its "Runtime error: " message prefix and the dedicated
constant in its own errorToString map. -/
theorem C2_runtime_error_wrong_code :
    (GetErrorCode (ThrowRuntimeError_ex "stackA" "boom")).1 = SPXERR_INVALID_ARG
    ∧ SPXERR_INVALID_ARG ≠ SPXERR_RUNTIME_ERROR := by
  exact ⟨rfl, by decide⟩

/-- C3: a failure captured only as a plain std::runtime_error and stored
through the runtime_error overload of StoreException is recorded with the
UnhandledException catch-all code. -/
theorem C3_unhandled_catch_all (freshStack : String)
    (t : HandleTable ExceptionWithCallStack) (ex : RuntimeErrorRef) :
    ∃ rec,
      Resolve (StoreException_runtime freshStack t ex).2
          (StoreException_runtime freshStack t ex).1 = some rec
      ∧ (GetErrorCode rec).1 = SPXERR_UNHANDLED_EXCEPTION := by
  refine ⟨mkFromMessage freshStack ex.whatMsg SPXERR_UNHANDLED_EXCEPTION, ?_, rfl⟩
  exact resolve_track t _

/-- C8: an ExceptionRecord is immutable once constructed — what(),
GetErrorCode() and GetCallStack() return the message, code and call-stack
snapshot fixed at construction and leave the record unchanged, and
StoreException stores a record equal to the constructed one. -/
theorem C8_record_immutable (e : ExceptionWithCallStack)
    (t : HandleTable ExceptionWithCallStack) :
    (whatOf e).1 = e.message ∧ (whatOf e).2 = e
    ∧ (GetErrorCode e).1 = e.m_error ∧ (GetErrorCode e).2 = e
    ∧ (GetCallStack e).1 = e.m_callstack ∧ (GetCallStack e).2 = e
    ∧ Resolve (StoreException_move t e).2 (StoreException_move t e).1 = some e := by
  exact ⟨rfl, rfl, rfl, rfl, rfl, rfl, resolve_track t e⟩

/-- C9: the runtime_error overload of StoreException uses only what() — the
stored record's code is always SPXERR_UNHANDLED_EXCEPTION and its call
stack is the one freshly captured at the store site, even when the
argument's dynamic type is an ExceptionWithCallStack that carried a
specific code and an original call stack; only the message survives. -/
theorem C9_runtime_error_overload_slices (freshStack : String)
    (t : HandleTable ExceptionWithCallStack) (ex : RuntimeErrorRef)
    (orig : ExceptionWithCallStack)
    (_hdyn : ex.dynamicPart = some orig)
    (hwhat : ex.whatMsg = (whatOf orig).1) :
    ∃ rec,
      Resolve (StoreException_runtime freshStack t ex).2
          (StoreException_runtime freshStack t ex).1 = some rec
      ∧ (GetErrorCode rec).1 = SPXERR_UNHANDLED_EXCEPTION
      ∧ (GetCallStack rec).1 = freshStack
      ∧ (whatOf rec).1 = (whatOf orig).1 := by
  refine ⟨mkFromMessage freshStack ex.whatMsg SPXERR_UNHANDLED_EXCEPTION, ?_, rfl, rfl, hwhat⟩
  exact resolve_track t _

/-- C9 witness: at a concrete runtime_error whose dynamic type is an
ExceptionWithCallStack carrying SPXERR_TIMEOUT and an original stack, the
stored record carries the catch-all code and the store-site stack. -/
theorem C9_runtime_error_overload_slices_witness :
    ∃ rec,
      Resolve (StoreException_runtime "freshStack" (⟨0, []⟩ : HandleTable ExceptionWithCallStack)
          ⟨"msg", some (mkFromMessage "origStack" "msg" SPXERR_TIMEOUT)⟩).2
          (StoreException_runtime "freshStack" (⟨0, []⟩ : HandleTable ExceptionWithCallStack)
            ⟨"msg", some (mkFromMessage "origStack" "msg" SPXERR_TIMEOUT)⟩).1 = some rec
      ∧ (GetErrorCode rec).1 = SPXERR_UNHANDLED_EXCEPTION
      ∧ (GetCallStack rec).1 = "freshStack"
      ∧ (whatOf rec).1 = (whatOf (mkFromMessage "origStack" "msg" SPXERR_TIMEOUT)).1 :=
  C9_runtime_error_overload_slices "freshStack" ⟨0, []⟩
    ⟨"msg", some (mkFromMessage "origStack" "msg" SPXERR_TIMEOUT)⟩
    (mkFromMessage "origStack" "msg" SPXERR_TIMEOUT) rfl rfl

/-- C10: constructing an IntentRecognitionResult from an invalid result
handle does not fail — the validity check guards the only call that can
throw, and the intent id stays the default-constructed empty string; with a
valid handle the id is whatever the C call reads through the fixed
1024-character buffer, a failing call propagating its code. -/
theorem C10_populate_intent_guard (getIntentId : Nat → Except SPXHR String) :
    IntentRecognitionResult_intentId false getIntentId = .ok ""
    ∧ IntentRecognitionResult_intentId true getIntentId = getIntentId maxCharCount
    ∧ maxCharCount = 1024 := by
  refine ⟨rfl, ?_, rfl⟩
  unfold IntentRecognitionResult_intentId PopulateIntentFields
  cases h : getIntentId maxCharCount <;> simp [h]

/-- C4: stringify renders "0x" plus the hexadecimal rendering of hr,
followed by " (<symbolic-name>)" exactly when hr is a key of the
errorToString map, and the hex-only string otherwise. -/
theorem C4_stringify_format (hr : SPXHR) :
    (∃ name, (hr, name) ∈ errorToString
        ∧ stringify hr = "0x" ++ hexStr hr ++ " (" ++ name ++ ")")
    ∨ ((∀ name, (hr, name) ∉ errorToString) ∧ stringify hr = "0x" ++ hexStr hr) := by
  cases hfind : errorToString.find? (fun item => item.1 == hr) with
  | some item =>
    left
    have hmem := List.mem_of_find?_eq_some hfind
    have h1 : item.1 = hr := by
      have hp := List.find?_some hfind
      simpa using hp
    refine ⟨item.2, ?_, by simp [stringify, hfind]⟩
    rw [← h1]
    simpa using hmem
  | none =>
    right
    refine ⟨?_, by simp [stringify, hfind]⟩
    intro name hmem
    have hnot := List.find?_eq_none.mp hfind _ hmem
    simp at hnot

/-- C6: starting an AsyncOperation whose kind conflicts with a
not-yet-terminal operation on the same session fails immediately with
AlreadyInProgress and leaves the session unchanged — nothing is queued and
no work is scheduled. -/
theorem C6_start_conflict (s : Session) (k : OpKind)
    (hconf : ∃ o ∈ s.ops, conflicts o.kind k = true ∧ o.state.isTerminal = false) :
    StartOp s k = (.error SPXERR_ALREADY_IN_PROGRESS, s) := by
  have hany : s.ops.any (fun o => conflicts o.kind k && !o.state.isTerminal) = true := by
    rcases hconf with ⟨o, ho, h1, h2⟩
    exact List.any_eq_true.mpr ⟨o, ho, by simp [h1, h2]⟩
  simp [StartOp, hany]

/-- C6 witness: on a session with a running start-continuous operation, a
second start-continuous fails with AlreadyInProgress and the session is
unchanged. -/
theorem C6_start_conflict_witness :
    (∃ o ∈ (⟨[⟨0, .startContinuous, .running⟩], 1, [0]⟩ : Session).ops,
        conflicts o.kind .startContinuous = true ∧ o.state.isTerminal = false)
    ∧ StartOp (⟨[⟨0, .startContinuous, .running⟩], 1, [0]⟩ : Session) .startContinuous
        = (.error SPXERR_ALREADY_IN_PROGRESS,
            (⟨[⟨0, .startContinuous, .running⟩], 1, [0]⟩ : Session)) :=
  ⟨by decide, C6_start_conflict ⟨[⟨0, .startContinuous, .running⟩], 1, [0]⟩ .startContinuous
    (by decide)⟩

/-- Delivery log of a fold-step raise over an explicit snapshot list: every
snapshot member receives exactly one delivery, in order, regardless of how
the callbacks rewrite the live subscriber list along the way. -/
lemma raise_fold_delivered (cb : Nat → List Nat → List Nat) (r : Nat) (l : List Nat) :
    ∀ st : EventStream,
      (l.foldl (fun s i =>
          { subscribers := cb i s.subscribers, delivered := (r, i) :: s.delivered }) st).delivered
        = (l.map fun i => (r, i)).reverse ++ st.delivered := by
  induction l with
  | nil => intro st; simp
  | cons i l ih =>
    intro st
    simp [List.foldl_cons, ih, List.reverse_cons, List.append_assoc]

/-- C7: a raise in progress completes, delivering exactly to the snapshot
of subscribers it started with even when a callback disconnects during
delivery; a raise started after Disconnect of a subscriber never delivers
to that subscriber; and a raise started after DisconnectAll delivers to no
one (it leaves the stream unchanged). -/
theorem C7_disconnect_no_redelivery (cb : Nat → List Nat → List Nat) (r r2 : Nat)
    (st : EventStream) (i : Nat)
    (hlog : (r2, i) ∉ (Disconnect st i).delivered) :
    (Raise cb r st).delivered = (st.subscribers.map fun j => (r, j)).reverse ++ st.delivered
    ∧ (r2, i) ∉ (Raise cb r2 (Disconnect st i)).delivered
    ∧ Raise cb r2 (DisconnectAll st) = DisconnectAll st := by
  refine ⟨raise_fold_delivered cb r st.subscribers st, ?_, ?_⟩
  · have hdel := raise_fold_delivered cb r2 (Disconnect st i).subscribers (Disconnect st i)
    rw [show Raise cb r2 (Disconnect st i)
        = ((Disconnect st i).subscribers).foldl (fun s j =>
            { subscribers := cb j s.subscribers, delivered := (r2, j) :: s.delivered })
          (Disconnect st i) from rfl]
    rw [hdel]
    intro hmem
    rcases List.mem_append.mp hmem with h | h
    · rw [List.mem_reverse] at h
      rcases List.mem_map.mp h with ⟨j, hj, hji⟩
      have hjeq : j = i := congrArg Prod.snd hji
      subst hjeq
      simp [Disconnect] at hj
    · exact hlog h
  · simp [Raise, DisconnectAll]

/-- C7 witness: with every callback performing a disconnect-all from within
the delivery, a raise still delivers to its whole snapshot, and after a
Disconnect of subscriber 2 no later raise reaches subscriber 2. -/
theorem C7_disconnect_no_redelivery_witness :
    (Raise (fun _ _ => []) 0 ⟨[1, 2, 3], []⟩).delivered
        = (([1, 2, 3].map fun j => (0, j)).reverse ++ [])
    ∧ (5, 2) ∉ (Raise (fun _ _ => []) 5 (Disconnect ⟨[1, 2, 3], []⟩ 2)).delivered
    ∧ Raise (fun _ _ => []) 5 (DisconnectAll ⟨[1, 2, 3], []⟩)
        = DisconnectAll ⟨[1, 2, 3], []⟩ :=
  C7_disconnect_no_redelivery (fun _ _ => []) 0 5 ⟨[1, 2, 3], []⟩ 2 (by decide)

/-- Filtering out a key different from h does not change the lookup of h. -/
lemma find?_key_filter_ne {α : Type} (h h2 : Nat) (hne : h ≠ h2) (l : List (Nat × α)) :
    (l.filter (fun p => p.1 != h2)).find? (fun p => p.1 == h)
      = l.find? (fun p => p.1 == h) := by
  induction l with
  | nil => rfl
  | cons a l ih =>
    by_cases ha : a.1 = h2
    · have h1 : (a.1 != h2) = false := by simp [ha]
      have h2' : ¬ ((a.1 == h) = true) := by
        rw [ha]
        simp
        exact fun e => hne e.symm
      rw [List.filter_cons, h1, if_neg (by simp),
        @List.find?_cons_of_neg _ (fun p => p.1 == h) a l h2', ih]
    · have h1 : (a.1 != h2) = true := by simp [ha]
      by_cases hah : (a.1 == h) = true
      · rw [List.filter_cons, h1, if_pos rfl,
          @List.find?_cons_of_pos _ (fun p => p.1 == h) a (l.filter (fun p => p.1 != h2)) hah,
          @List.find?_cons_of_pos _ (fun p => p.1 == h) a l hah]
      · rw [List.filter_cons, h1, if_pos rfl,
          @List.find?_cons_of_neg _ (fun p => p.1 == h) a (l.filter (fun p => p.1 != h2)) hah,
          @List.find?_cons_of_neg _ (fun p => p.1 == h) a l hah, ih]

/-- After filtering out key h, looking h up fails. -/
lemma find?_filter_self_none {α : Type} (h : Nat) (l : List (Nat × α)) :
    (l.filter (fun p => p.1 != h)).find? (fun p => p.1 == h) = none := by
  apply List.find?_eq_none.mpr
  intro a ha
  have := List.of_mem_filter ha
  simpa using this

/-- One live-phase step: any table operation other than a release of h
preserves both the bound on h and the resolution of h to x. -/
lemma live_step {α : Type} (h : Nat) (x : α) (t : HandleTable α) (op : TableOp α)
    (hlt : h < t.nextHandle) (hres : Resolve t h = some x) (hop : op ≠ TableOp.release h) :
    h < (applyOp t op).nextHandle ∧ Resolve (applyOp t op) h = some x := by
  cases op with
  | track y =>
    refine ⟨by simp [applyOp, Track]; omega, ?_⟩
    have hne : ¬ ((t.nextHandle == h) = true) := by
      simp
      exact Nat.ne_of_gt hlt
    show Resolve (Track t y).2 h = some x
    unfold Resolve at hres ⊢
    simp only [Track]
    rw [@List.find?_cons_of_neg _ (fun p => p.1 == h) (t.nextHandle, y) t.entries hne]
    exact hres
  | release h2 =>
    have hne : h ≠ h2 := fun e => hop (by rw [e])
    cases hrel : Release t h2 with
    | none => simpa [applyOp, hrel] using ⟨hlt, hres⟩
    | some t2 =>
      have ht2 : t2 = ⟨t.nextHandle, t.entries.filter (fun p => p.1 != h2)⟩ := by
        unfold Release at hrel
        split at hrel
        · injection hrel with hh
          exact hh.symm
        · simp at hrel
      subst ht2
      refine ⟨by simpa [applyOp, hrel] using hlt, ?_⟩
      show Resolve ((Release t h2).getD t) h = some x
      rw [hrel]
      show Resolve ⟨t.nextHandle, t.entries.filter (fun p => p.1 != h2)⟩ h = some x
      unfold Resolve at hres ⊢
      simp only
      rw [find?_key_filter_ne h h2 hne]
      exact hres

/-- One dead-phase step: once h no longer resolves, no table operation
revives it (fresh handles are larger; releases only remove). -/
lemma dead_step {α : Type} (h : Nat) (t : HandleTable α) (op : TableOp α)
    (hlt : h < t.nextHandle) (hres : Resolve t h = none) :
    h < (applyOp t op).nextHandle ∧ Resolve (applyOp t op) h = none := by
  cases op with
  | track y =>
    refine ⟨by simp [applyOp, Track]; omega, ?_⟩
    have hne : ¬ ((t.nextHandle == h) = true) := by
      simp
      exact Nat.ne_of_gt hlt
    show Resolve (Track t y).2 h = none
    unfold Resolve at hres ⊢
    simp only [Track]
    rw [@List.find?_cons_of_neg _ (fun p => p.1 == h) (t.nextHandle, y) t.entries hne]
    exact hres
  | release h2 =>
    cases hrel : Release t h2 with
    | none => simpa [applyOp, hrel] using ⟨hlt, hres⟩
    | some t2 =>
      have ht2 : t2 = ⟨t.nextHandle, t.entries.filter (fun p => p.1 != h2)⟩ := by
        unfold Release at hrel
        split at hrel
        · injection hrel with hh
          exact hh.symm
        · simp at hrel
      subst ht2
      refine ⟨by simpa [applyOp, hrel] using hlt, ?_⟩
      show Resolve ((Release t h2).getD t) h = none
      rw [hrel]
      show Resolve ⟨t.nextHandle, t.entries.filter (fun p => p.1 != h2)⟩ h = none
      unfold Resolve at hres ⊢
      rw [Option.map_eq_none'] at hres ⊢
      apply List.find?_eq_none.mpr
      intro a ha
      exact List.find?_eq_none.mp hres a (List.mem_of_mem_filter ha)

/-- Live phase over a whole operation sequence that never releases h. -/
lemma live_ops {α : Type} (h : Nat) (x : α) (ops : List (TableOp α)) :
    ∀ t : HandleTable α, h < t.nextHandle → Resolve t h = some x → noReleaseOf ops h →
      h < (applyOps t ops).nextHandle ∧ Resolve (applyOps t ops) h = some x := by
  induction ops with
  | nil => exact fun t h1 h2 _ => ⟨h1, h2⟩
  | cons op ops ih =>
    intro t h1 h2 hno
    have hstep := live_step h x t op h1 h2 (hno op (List.mem_cons_self op ops))
    have hno2 : noReleaseOf ops h := fun o ho => hno o (List.mem_cons_of_mem op ho)
    simpa [applyOps, List.foldl_cons] using ih (applyOp t op) hstep.1 hstep.2 hno2

/-- Dead phase over a whole operation sequence: h stays unresolvable. -/
lemma dead_ops {α : Type} (h : Nat) (ops : List (TableOp α)) :
    ∀ t : HandleTable α, h < t.nextHandle → Resolve t h = none →
      h < (applyOps t ops).nextHandle ∧ Resolve (applyOps t ops) h = none := by
  induction ops with
  | nil => exact fun t h1 h2 => ⟨h1, h2⟩
  | cons op ops ih =>
    intro t h1 h2
    have hstep := dead_step h t op h1 h2
    simpa [applyOps, List.foldl_cons] using ih (applyOp t op) hstep.1 hstep.2

/-- Releasing a handle that currently resolves succeeds, and afterwards
the handle no longer resolves. -/
lemma release_of_resolve_some {α : Type} (t : HandleTable α) (h : Nat) (x : α)
    (hres : Resolve t h = some x) :
    Release t h = some ⟨t.nextHandle, t.entries.filter (fun p => p.1 != h)⟩
    ∧ Resolve ⟨t.nextHandle, t.entries.filter (fun p => p.1 != h)⟩ h = none := by
  constructor
  · have hany : t.entries.any (fun p => p.1 == h) = true := by
      unfold Resolve at hres
      cases hf : t.entries.find? (fun p => p.1 == h) with
      | none => rw [hf] at hres; simp at hres
      | some a =>
        have hmem := List.mem_of_find?_eq_some hf
        have hpa := List.find?_some hf
        exact List.any_eq_true.mpr ⟨a, hmem, hpa⟩
    simp [Release, hany]
  · simp [Resolve, find?_filter_self_none]

/-- Releasing a handle that does not resolve fails with NotFound. -/
lemma release_of_resolve_none {α : Type} (t : HandleTable α) (h : Nat)
    (hres : Resolve t h = none) : Release t h = none := by
  have hany : t.entries.any (fun p => p.1 == h) = false := by
    apply List.any_eq_false.mpr
    intro a ha
    unfold Resolve at hres
    rw [Option.map_eq_none'] at hres
    exact List.find?_eq_none.mp hres a ha
  simp [Release, hany]

/-- C5: for a handle h returned by Track, Resolve(h) keeps returning the
tracked object across any sequence of table operations that does not
release h; the first Release(h) then succeeds, and afterwards — across any
further sequence of operations — every Resolve(h) and every second
Release(h) fails with NotFound. -/
theorem C5_handle_lifecycle {α : Type} (t : HandleTable α) (x : α)
    (ops ops2 : List (TableOp α)) (hno : noReleaseOf ops (Track t x).1) :
    ResolveHr (applyOps (Track t x).2 ops) (Track t x).1 = .ok x
    ∧ ∃ t2, ReleaseHr (applyOps (Track t x).2 ops) (Track t x).1 = .ok t2
      ∧ ResolveHr (applyOps t2 ops2) (Track t x).1 = .error SPXERR_NOT_FOUND
      ∧ ReleaseHr (applyOps t2 ops2) (Track t x).1 = .error SPXERR_NOT_FOUND := by
  have h1 : (Track t x).1 < (Track t x).2.nextHandle := by simp [Track]
  have h2 : Resolve (Track t x).2 (Track t x).1 = some x := resolve_track t x
  have hlive := live_ops (Track t x).1 x ops (Track t x).2 h1 h2 hno
  have hrel := release_of_resolve_some (applyOps (Track t x).2 ops) (Track t x).1 x hlive.2
  have hdead := dead_ops (Track t x).1 ops2
      ⟨(applyOps (Track t x).2 ops).nextHandle,
        (applyOps (Track t x).2 ops).entries.filter (fun p => p.1 != (Track t x).1)⟩
      (by simpa using hlive.1) hrel.2
  refine ⟨by simp [ResolveHr, hlive.2],
    ⟨(applyOps (Track t x).2 ops).nextHandle,
      (applyOps (Track t x).2 ops).entries.filter (fun p => p.1 != (Track t x).1)⟩,
    ?_, ?_, ?_⟩
  · simp [ReleaseHr, hrel.1]
  · simp [ResolveHr, hdead.2]
  · simp [ReleaseHr, release_of_resolve_none _ _ hdead.2]

/-- C5 witness: tracking 7 in an empty table, then tracking another
object, lets the handle resolve; the first release succeeds, and after
further traffic (a track and an attempted re-release) both Resolve and a
second Release report NotFound. -/
theorem C5_handle_lifecycle_witness :
    noReleaseOf [TableOp.track 5] (Track (⟨0, []⟩ : HandleTable Nat) 7).1
    ∧ (ResolveHr (applyOps (Track (⟨0, []⟩ : HandleTable Nat) 7).2 [TableOp.track 5])
          (Track (⟨0, []⟩ : HandleTable Nat) 7).1 = .ok 7
      ∧ ∃ t2, ReleaseHr (applyOps (Track (⟨0, []⟩ : HandleTable Nat) 7).2 [TableOp.track 5])
            (Track (⟨0, []⟩ : HandleTable Nat) 7).1 = .ok t2
        ∧ ResolveHr (applyOps t2 [TableOp.track 9, TableOp.release 0])
            (Track (⟨0, []⟩ : HandleTable Nat) 7).1 = .error SPXERR_NOT_FOUND
        ∧ ReleaseHr (applyOps t2 [TableOp.track 9, TableOp.release 0])
            (Track (⟨0, []⟩ : HandleTable Nat) 7).1 = .error SPXERR_NOT_FOUND) :=
  ⟨by decide, C5_handle_lifecycle ⟨0, []⟩ 7 [TableOp.track 5]
    [TableOp.track 9, TableOp.release 0] (by decide)⟩

end Spx
